import Mathlib

/-!
Shallow embedding of the PriceWatcher monitoring and alerting pipeline
(`pricewatcher/tasks/price_tasks.py`, `pricewatcher/tasks/scheduler.py`,
`pricewatcher/scrapers/manager.py`, `pricewatcher/scrapers/base.py`,
`pricewatcher/notifications/manager.py`,
`pricewatcher/tasks/notification_tasks.py`, `pricewatcher/api/server.py`,
`pricewatcher/database/models.py`), together with theorems settling the
specification claims.

Timestamps are modelled as natural numbers (seconds since the epoch);
`datetime` subtraction is modelled as subtraction over ℤ.  Prices
(`Float` columns in the source) are modelled as rationals: the pipeline
only ever compares prices, so any linearly ordered field is faithful.
-/

namespace PriceWatcher

/-- `Product` row from `database/models.py`: only the columns the pipeline
reads are carried. -/
structure Product where
  id : Nat
  name : String
  url : String
  active : Bool
deriving Repr, DecidableEq

/-- `PricePoint` row from `database/models.py`. -/
structure PricePoint where
  product_id : Nat
  price : ℚ
  currency : String
  in_stock : Bool
  timestamp : Nat
deriving Repr, DecidableEq

/-- `PriceAlert` row from `database/models.py`.  The three nullable
endpoint columns are `Option String`; `none` models SQL NULL. -/
structure PriceAlert where
  id : Nat
  product_id : Nat
  target_price : ℚ
  notification_email : Option String
  notification_phone : Option String
  notification_telegram : Option String
  is_active : Bool
  last_notified_at : Option Nat
deriving Repr, DecidableEq

/-- The relevant database state: the three tables the pipeline touches. -/
structure DB where
  products : List Product
  pricePoints : List PricePoint
  alerts : List PriceAlert
deriving Repr, DecidableEq

/-- The dictionary returned by `update_product_price` on success
(`price_tasks.py` lines 59-65). -/
structure PriceUpdateResult where
  product_id : Nat
  price : ℚ
  currency : String
  in_stock : Bool
deriving Repr, DecidableEq

/-- Cooldown test of `check_product_alerts` (`price_tasks.py` lines
150-154) and of `TaskScheduler.check_price_alerts` (`scheduler.py` lines
148-153): notify unless a previous notification exists and lies strictly
less than 24 hours in the past. -/
def shouldNotify (now : Nat) (last : Option Nat) : Bool :=
  match last with
  | none => true
  | some t => !decide ((now : ℤ) - (t : ℤ) < 24 * 60 * 60)

/-- Cooldown skip of the global Celery task `check_price_alerts`
(`price_tasks.py` lines 205-210): skip when `last_notified_at` is set and
is later than `now - 1 day`. -/
def skipRecent (now : Nat) (last : Option Nat) : Bool :=
  match last with
  | none => false
  | some t => decide ((now : ℤ) - 24 * 60 * 60 < (t : ℤ))

/-- Alert selection query of `check_product_alerts` (`price_tasks.py`
lines 140-144): same product, rule active, target price at or above the
observed price. -/
def alertMatches (pid : Nat) (price : ℚ) (a : PriceAlert) : Bool :=
  a.product_id == pid && a.is_active && decide (price ≤ a.target_price)

/-- Loop body of `check_product_alerts` (`price_tasks.py` lines 148-159)
for one alert row: returns the updated row and whether it was triggered. -/
def processAlert (now : Nat) (pid : Nat) (price : ℚ) (a : PriceAlert) :
    PriceAlert × Bool :=
  if alertMatches pid price a then
    if shouldNotify now a.last_notified_at then
      ({ a with last_notified_at := some now }, true)
    else (a, false)
  else (a, false)

/-- `check_product_alerts` over the whole alert table: each row is
processed by the loop body. -/
def checkProductAlerts (now : Nat) (pid : Nat) (price : ℚ)
    (alerts : List PriceAlert) : List (PriceAlert × Bool) :=
  alerts.map (processAlert now pid price)

/-- The `triggered_alerts` id list accumulated by `check_product_alerts`. -/
def triggeredIds (now : Nat) (pid : Nat) (price : ℚ)
    (alerts : List PriceAlert) : List Nat :=
  ((checkProductAlerts now pid price alerts).filter (fun r => r.2)).map
    (fun r => r.1.id)

/-- One incoming price observation as seen by the alert evaluator. -/
structure ObsIn where
  time : Nat
  pid : Nat
  price : ℚ
deriving Repr, DecidableEq

/-- Folding a sequence of incoming observations through the evaluator,
counting how many times the given rule fires. -/
def runObservations (a : PriceAlert) (os : List ObsIn) : PriceAlert × Nat :=
  os.foldl
    (fun st o =>
      let r := processAlert o.time o.pid o.price st.1
      (r.1, st.2 + (if r.2 then 1 else 0)))
    (a, 0)

/-- The query `order_by(PricePoint.timestamp.desc()).first()` restricted
to one product (`scheduler.py` lines 133-135, `price_tasks.py` lines
213-215, `server.py` lines 317-319): the stored point of maximal
timestamp.  Among equal timestamps the later-inserted row wins, matching
an append-ordered scan.  `latestStep` is the per-row maximum step. -/
def latestStep (acc : Option PricePoint) (q : PricePoint) : Option PricePoint :=
  match acc with
  | none => some q
  | some b => if b.timestamp ≤ q.timestamp then some q else some b

def latestPricePoint (pts : List PricePoint) (pid : Nat) : Option PricePoint :=
  (pts.filter (fun q => q.product_id == pid)).foldl latestStep none

/-- Observable events of an alert-evaluation run: an in-memory write of
`last_notified_at`, a session commit, and a notification dispatch attempt
(synchronous send or scheduling of the notification task) carrying the
triggered alert ids. -/
inductive Ev where
  | setLastNotified (alertId : Nat) (t : Nat)
  | commit
  | dispatch (alertIds : List Nat)
deriving Repr, DecidableEq

/-- Event trace of `check_product_alerts` (`price_tasks.py` lines
138-174): the loop writes `last_notified_at` for each triggered rule,
then — only when something triggered — commits and schedules the
notification task with all triggered ids. -/
def checkProductAlertsTrace (now : Nat) (pid : Nat) (price : ℚ)
    (alerts : List PriceAlert) : List Ev :=
  let trig := triggeredIds now pid price alerts
  trig.map (fun i => Ev.setLastNotified i now) ++
    (if trig.isEmpty then [] else [Ev.commit, Ev.dispatch trig])

/-- Per-alert body of `TaskScheduler.check_price_alerts` (`scheduler.py`
lines 130-164): look up the latest price and the product (without testing
`product.active`), and when the price is at or below target and the
cooldown has passed, FIRST dispatch the notifications, THEN write
`last_notified_at` and commit. -/
def schedulerAlertTrace (now : Nat) (db : DB) (a : PriceAlert) : List Ev :=
  match latestPricePoint db.pricePoints a.product_id with
  | none => []
  | some lp =>
    match db.products.find? (fun p => p.id == a.product_id) with
    | none => []
    | some _ =>
      if lp.price ≤ a.target_price ∧ shouldNotify now a.last_notified_at then
        [Ev.dispatch [a.id], Ev.setLastNotified a.id now, Ev.commit]
      else []

/-- `TaskScheduler.check_price_alerts` (`scheduler.py` lines 121-174):
only rules with `is_active` are loaded; each is processed by
`schedulerAlertTrace`. -/
def schedulerCheckTrace (now : Nat) (db : DB) : List Ev :=
  ((db.alerts.filter (fun a => a.is_active)).map (schedulerAlertTrace now db)).flatten

/-- Per-alert body of the global Celery task `check_price_alerts`
(`price_tasks.py` lines 207-235): skip inside cooldown, look up the
latest price (without testing `product.active`), and when at or below
target write `last_notified_at` and schedule the notification task. -/
def taskAlertTrace (now : Nat) (db : DB) (a : PriceAlert) : List Ev :=
  if skipRecent now a.last_notified_at then []
  else
    match latestPricePoint db.pricePoints a.product_id with
    | none => []
    | some lp =>
      if lp.price ≤ a.target_price then
        [Ev.setLastNotified a.id now, Ev.dispatch [a.id]]
      else []

/-- The global Celery task `check_price_alerts` (`price_tasks.py` lines
190-245): active rules only; per-rule processing, then one commit at the
end when anything triggered. -/
def checkPriceAlertsTaskTrace (now : Nat) (db : DB) : List Ev :=
  let body :=
    ((db.alerts.filter (fun a => a.is_active)).map (taskAlertTrace now db)).flatten
  body ++ (if body.isEmpty then [] else [Ev.commit])

/-- Scans a trace and checks that every dispatch naming `aid` is preceded
by a `setLastNotified` for `aid`; `seen` records whether such a write has
already occurred. -/
def dispatchAfterUpdate (aid : Nat) (seen : Bool) : List Ev → Bool
  | [] => true
  | Ev.setLastNotified i _ :: tr => dispatchAfterUpdate aid (seen || i == aid) tr
  | Ev.commit :: tr => dispatchAfterUpdate aid seen tr
  | Ev.dispatch ids :: tr =>
      (!ids.any (fun i => i == aid) || seen) && dispatchAfterUpdate aid seen tr

/-- Scans a trace and checks that every `setLastNotified` for `aid` is
preceded by a dispatch naming `aid`. -/
def updateAfterDispatch (aid : Nat) (seen : Bool) : List Ev → Bool
  | [] => true
  | Ev.setLastNotified i _ :: tr =>
      (!(i == aid) || seen) && updateAfterDispatch aid seen tr
  | Ev.commit :: tr => updateAfterDispatch aid seen tr
  | Ev.dispatch ids :: tr =>
      updateAfterDispatch aid (seen || ids.any (fun i => i == aid)) tr

/-- The fields of a scraped product dictionary the sweep consumes. -/
structure ProductInfo where
  price : ℚ
  currency : String
  in_stock : Bool
deriving Repr, DecidableEq

/-- Outcome of `scrape_product` for a URL as the sweep sees it: a usable
dictionary with a price, a dictionary without a usable price (including
the empty dictionary), or an exception escaping the scrape call. -/
inductive ScrapeOutcome where
  | ok (info : ProductInfo)
  | noPrice
  | raised
deriving Repr, DecidableEq

/-- The price point built by the sweep body (`scheduler.py` lines
98-103): timestamp defaults to the current time. -/
def mkPricePoint (pid : Nat) (info : ProductInfo) (now : Nat) : PricePoint :=
  { product_id := pid, price := info.price, currency := info.currency,
    in_stock := info.in_stock, timestamp := now }

/-- Loop of `TaskScheduler.update_all_prices` (`scheduler.py` lines
89-112) over the active-product list: on a usable scrape a price point is
appended and committed; a missing price or an exception is logged (and
rolled back) and the loop continues with the next product. -/
def sweepNewPoints (env : String → ScrapeOutcome) (now : Nat) :
    List Product → List PricePoint
  | [] => []
  | p :: rest =>
    match env p.url with
    | ScrapeOutcome.ok info => mkPricePoint p.id info now :: sweepNewPoints env now rest
    | ScrapeOutcome.noPrice => sweepNewPoints env now rest
    | ScrapeOutcome.raised => sweepNewPoints env now rest

/-- `TaskScheduler.update_all_prices` (`scheduler.py` lines 80-119): the
sweep runs over the active products and appends the successful price
points; the method returns no summary value. -/
def updateAllPricesSched (env : String → ScrapeOutcome) (now : Nat) (db : DB) : DB :=
  { db with pricePoints :=
      db.pricePoints ++ sweepNewPoints env now (db.products.filter (fun p => p.active)) }

/-- The dictionary returned by the Celery task `update_all_prices`
(`price_tasks.py` lines 100-103): only the number of scheduled products. -/
structure TaskSweepResult where
  scheduled_products : Nat
deriving Repr, DecidableEq

/-- Celery `update_all_prices` (`price_tasks.py` lines 75-113): schedules
one chained update per active product and returns the scheduled count;
no extraction outcome reaches this return value. -/
def updateAllPricesTask (db : DB) : TaskSweepResult :=
  { scheduled_products := (db.products.filter (fun p => p.active)).length }

/-- The spec's sweep summary record (spec section 4.2): counts of
attempted, succeeded, and failed products. -/
structure SweepCounts where
  attempted : Nat
  succeeded : Nat
  failed : Nat
deriving Repr, DecidableEq

/-- The sweep summary as the spec words it, for comparison with the
source's return values: attempted is every active product, succeeded the
usable extractions, failed the rest. -/
def specSweepCounts (env : String → ScrapeOutcome) (products : List Product) :
    SweepCounts :=
  let act := products.filter (fun p => p.active)
  { attempted := act.length,
    succeeded := (act.filter (fun p => match env p.url with
      | ScrapeOutcome.ok _ => true
      | _ => false)).length,
    failed := (act.filter (fun p => match env p.url with
      | ScrapeOutcome.ok _ => false
      | _ => true)).length }

/-- `update_product_price` (`price_tasks.py` lines 18-73): the product is
loaded with `Product.active == True` in the query; a missing or inactive
product, a scrape without a price, or an exception yields `False` (here
`none`), otherwise a price point is appended and the result dictionary
returned. -/
def updateProductPrice (env : String → ScrapeOutcome) (now : Nat) (db : DB)
    (pid : Nat) : Option PriceUpdateResult × DB :=
  match db.products.find? (fun p => p.id == pid && p.active) with
  | none => (none, db)
  | some p =>
    match env p.url with
    | ScrapeOutcome.ok info =>
        (some { product_id := p.id, price := info.price,
                currency := info.currency, in_stock := info.in_stock },
         { db with pricePoints := db.pricePoints ++ [mkPricePoint p.id info now] })
    | ScrapeOutcome.noPrice => (none, db)
    | ScrapeOutcome.raised => (none, db)

/-- What a scraper class returns from `extract_product_info`: a
dictionary (string keys; the empty list models the falsy empty dict) or
an exception. -/
inductive ExtractResult where
  | dict (d : List (String × String))
  | raised
deriving Repr, DecidableEq

/-- One scraper plugin as `ScraperManager` sees it: its
`get_store_name()`, its `is_valid_url` predicate on the URL, and its
`extract_product_info` behaviour. -/
structure Scraper where
  storeName : String
  matchesUrl : String → Bool
  extract : String → ExtractResult

/-- Python dict assignment `d[k] = v`: replace in place when the key is
present, otherwise append. -/
def dictInsert (d : List (String × String)) (k v : String) :
    List (String × String) :=
  if d.any (fun kv => kv.1 == k) then
    d.map (fun kv => if kv.1 == k then (k, v) else kv)
  else d ++ [(k, v)]

/-- Registration step of `ScraperManager._discover_scrapers`
(`manager.py` line 41): `self.scrapers[store_name] = attr` — dict
insertion keyed by store name, keeping the first-insertion position on a
repeated key. -/
def registerScraper (rs : List Scraper) (s : Scraper) : List Scraper :=
  if rs.any (fun q => q.storeName == s.storeName) then
    rs.map (fun q => if q.storeName == s.storeName then s else q)
  else rs ++ [s]

/-- The registry built by discovering plugins in order. -/
def registerAll (ps : List Scraper) : List Scraper :=
  ps.foldl registerScraper []

/-- `ScraperManager.get_scraper_for_url` (`manager.py` lines 46-63):
first registered scraper whose `is_valid_url` accepts the URL, else
`None`. -/
def getScraperForUrl (rs : List Scraper) (url : String) : Option Scraper :=
  rs.find? (fun s => s.matchesUrl url)

/-- `ScraperManager.scrape_product` (`manager.py` lines 65-87): no
matching scraper gives the empty dict; an exception from extraction is
caught and gives the empty dict; a truthy dictionary gets the
`store_name` key set from the matched scraper. -/
def scrapeProduct (rs : List Scraper) (url : String) : List (String × String) :=
  match getScraperForUrl rs url with
  | none => []
  | some s =>
    match s.extract url with
    | ExtractResult.raised => []
    | ExtractResult.dict d =>
        if d.isEmpty then d else dictInsert d "store_name" s.storeName

/-- Python truthiness of a nullable string column: NULL and the empty
string are falsy. -/
def truthy : Option String → Bool
  | none => false
  | some s => !s.isEmpty

/-- One channel sender as the managers see it: `is_configured()` and the
boolean outcome `send_notification` would return for a recipient. -/
structure Notifier where
  configured : Bool
  sendOk : String → Bool

/-- The `self.notifiers` dictionary of `NotificationManager`: which of
the three channel senders were discovered. -/
structure NotifierSet where
  email : Option Notifier
  telegram : Option Notifier
  twilio : Option Notifier

/-- Dictionary lookup `self.notifiers[notification_type]` by the keys the
discovery produces (`Email`, `Telegram`, `Twilio`). -/
def notifierFor (ns : NotifierSet) (ty : String) : Option Notifier :=
  if ty == "Email" then ns.email
  else if ty == "Telegram" then ns.telegram
  else if ty == "Twilio" then ns.twilio
  else none

/-- Whether the sender behind an outcome-map channel key (`email`,
`telegram`, `sms`) is present and configured. -/
def channelConfigured (ns : NotifierSet) (ch : String) : Bool :=
  match (if ch == "email" then ns.email
         else if ch == "telegram" then ns.telegram
         else if ch == "sms" then ns.twilio
         else none) with
  | some n => n.configured
  | none => false

/-- `NotificationManager.send_price_alert` (`notifications/manager.py`
lines 44-104): for each channel, an outcome entry is added only when the
endpoint is truthy, the sender was discovered, and `is_configured()`
holds; otherwise the channel is skipped with no entry. -/
def sendPriceAlert (ns : NotifierSet) (a : PriceAlert) : List (String × Bool) :=
  (if truthy a.notification_email then
     match ns.email with
     | some n =>
         if n.configured then [("email", n.sendOk (a.notification_email.getD ""))]
         else []
     | none => []
   else []) ++
  (if truthy a.notification_telegram then
     match ns.telegram with
     | some n =>
         if n.configured then [("telegram", n.sendOk (a.notification_telegram.getD ""))]
         else []
     | none => []
   else []) ++
  (if truthy a.notification_phone then
     match ns.twilio with
     | some n =>
         if n.configured then [("sms", n.sendOk (a.notification_phone.getD ""))]
         else []
     | none => []
   else [])

/-- `NotificationManager.send_test_notification` (`notifications/manager.py`
lines 106-132): `False` for an unknown type, `False` for an unconfigured
sender, otherwise the sender's result. -/
def sendTestForType (ns : NotifierSet) (ty : String) (recipient : String) : Bool :=
  match notifierFor ns ty with
  | none => false
  | some n => if !n.configured then false else n.sendOk recipient

/-- Per-alert outcome map built by the Celery task
`send_price_alert_notifications` (`notification_tasks.py` lines 61-97):
each truthy endpoint gets an entry whose value is
`send_test_notification`'s result — including `False` when the sender is
missing or unconfigured. -/
def taskAlertResults (ns : NotifierSet) (a : PriceAlert) : List (String × Bool) :=
  (if truthy a.notification_email then
     [("email", sendTestForType ns "Email" (a.notification_email.getD ""))]
   else []) ++
  (if truthy a.notification_telegram then
     [("telegram", sendTestForType ns "Telegram" (a.notification_telegram.getD ""))]
   else []) ++
  (if truthy a.notification_phone then
     [("sms", sendTestForType ns "Twilio" (a.notification_phone.getD ""))]
   else [])

/-- Request body `PriceAlertCreate` (`server.py` lines 51-57): the three
endpoints are optional with default `None`. -/
structure AlertCreateReq where
  product_id : Nat
  target_price : ℚ
  notification_email : Option String
  notification_phone : Option String
  notification_telegram : Option String
deriving Repr, DecidableEq

/-- The error responses `create_price_alert` can produce. -/
inductive ApiError where
  | notFound
  | validationError
deriving Repr, DecidableEq

/-- `create_price_alert` (`server.py` lines 221-265): a missing product
is rejected with 404; otherwise the alert row is created as sent — the
endpoint fields are stored unchecked and no endpoint validation runs. -/
def createPriceAlert (db : DB) (req : AlertCreateReq) (newId : Nat) :
    Except ApiError (DB × PriceAlert) :=
  match db.products.find? (fun p => p.id == req.product_id) with
  | none => Except.error ApiError.notFound
  | some _ =>
      let a : PriceAlert :=
        { id := newId, product_id := req.product_id,
          target_price := req.target_price,
          notification_email := req.notification_email,
          notification_phone := req.notification_phone,
          notification_telegram := req.notification_telegram,
          is_active := true, last_notified_at := none }
      Except.ok ({ db with alerts := db.alerts ++ [a] }, a)

/-- The latest-observation fields of `get_product_response` (`server.py`
lines 316-330). -/
structure LatestView where
  current_price : Option ℚ
  currency : String
  in_stock : Bool
deriving Repr, DecidableEq

/-- The latest-observation part of `get_product_response`: fields from
the newest price point, defaults when none exists. -/
def productLatestView (db : DB) (pid : Nat) : LatestView :=
  match latestPricePoint db.pricePoints pid with
  | none => { current_price := none, currency := "USD", in_stock := true }
  | some lp =>
      { current_price := some lp.price, currency := lp.currency,
        in_stock := lp.in_stock }

/-- Appending one observation row to the store. -/
def appendPricePoint (db : DB) (pt : PricePoint) : DB :=
  { db with pricePoints := db.pricePoints ++ [pt] }

/-- `price_str.replace` of the three currency symbols with the empty
string (`base.py` line 73). -/
def stripCurrencySymbols (l : List Char) : List Char :=
  l.filter (fun c => !(c == '$' || c == '€' || c == '£'))

/-- Python `str.strip()`: drop whitespace from both ends. -/
def pyStrip (l : List Char) : List Char :=
  ((l.dropWhile Char.isWhitespace).reverse.dropWhile Char.isWhitespace).reverse

/-- `cleaned.replace(",", ".")` (`base.py` line 75). -/
def commaToDot (l : List Char) : List Char :=
  l.map (fun c => if c == ',' then '.' else c)

/-- The cleaned character list `clean_price` feeds to the regex search. -/
def cleanedChars (s : String) : List Char :=
  commaToDot (pyStrip (stripCurrencySymbols s.data))

/-- Leftmost match of the regex `\d+\.\d+|\d+` (`base.py` line 78): at
the first digit, the maximal digit run, extended across a dot when at
least one digit follows it.  Returns integer part and optional
fractional part. -/
def findNumber : List Char → Option (List Char × Option (List Char))
  | [] => none
  | c :: rest =>
    if c.isDigit then
      let ds := List.takeWhile Char.isDigit (c :: rest)
      match List.dropWhile Char.isDigit (c :: rest) with
      | '.' :: r3 =>
        let fs := r3.takeWhile Char.isDigit
        if fs.isEmpty then some (ds, none) else some (ds, some fs)
      | _ => some (ds, none)
    else findNumber rest

/-- Decimal value of a digit run. -/
def digitsToNat (l : List Char) : Nat :=
  l.foldl (fun n c => 10 * n + (c.toNat - 48)) 0

/-- Exact value of the matched decimal literal (`float(match.group())`,
modelled exactly over ℚ). -/
def numberValue : List Char × Option (List Char) → ℚ
  | (ds, none) => (digitsToNat ds : ℚ)
  | (ds, some fs) =>
      (digitsToNat ds : ℚ) + (digitsToNat fs : ℚ) / ((10 ^ fs.length : ℕ) : ℚ)

/-- `BaseScraper.clean_price` (`base.py` lines 62-82): strip currency
symbols, strip whitespace, commas to dots, parse the first number found,
`0.0` when none. -/
def clean_price (s : String) : ℚ :=
  match findNumber (cleanedChars s) with
  | some m => numberValue m
  | none => 0

/-! ## Lemmas about the alert evaluator -/

theorem shouldNotify_eq_true_iff (now : Nat) (l : Option Nat) :
    shouldNotify now l = true ↔
      l = none ∨ ∃ t, l = some t ∧ (24 * 60 * 60 : ℤ) ≤ (now : ℤ) - t := by
  cases l with
  | none => simp [shouldNotify]
  | some t => simp [shouldNotify, not_lt]

theorem processAlert_not_fire (now pid : Nat) (price : ℚ) (a : PriceAlert)
    (h : shouldNotify now a.last_notified_at = false) :
    processAlert now pid price a = (a, false) := by
  unfold processAlert
  by_cases hm : alertMatches pid price a
  · simp [hm, h]
  · simp [hm]

theorem processAlert_fire_last (now pid : Nat) (price : ℚ) (a : PriceAlert)
    (h : (processAlert now pid price a).2 = true) :
    (processAlert now pid price a).1.last_notified_at = some now := by
  unfold processAlert at *
  by_cases hm : alertMatches pid price a
  · by_cases hs : shouldNotify now a.last_notified_at
    · simp [hm, hs]
    · simp [hm, hs] at h
  · simp [hm] at h

theorem runObservations_frozen (t1 : Nat) (a : PriceAlert)
    (hl : a.last_notified_at = some t1) (os : List ObsIn)
    (hos : ∀ o ∈ os, (o.time : ℤ) - (t1 : ℤ) < 24 * 60 * 60) (n : Nat) :
    os.foldl
      (fun st o =>
        let r := processAlert o.time o.pid o.price st.1
        (r.1, st.2 + (if r.2 then 1 else 0)))
      (a, n) = (a, n) := by
  induction os with
  | nil => rfl
  | cons o os ih =>
    have hsn : shouldNotify o.time a.last_notified_at = false := by
      rw [hl]
      simp only [shouldNotify, Bool.not_eq_false', decide_eq_true_eq]
      exact hos o (List.mem_cons_self o os)
    have hstep : processAlert o.time o.pid o.price a = (a, false) :=
      processAlert_not_fire _ _ _ _ hsn
    simp only [List.foldl_cons, hstep]
    exact ih (fun q hq => hos q (List.mem_cons_of_mem o hq))

/-- C1: for an active rule on the observed product with the observed
price at or below target, `check_product_alerts` fires the rule if and
only if `last_notified_at` is null or at least 24 hours old; and once the
rule has fired at time `now`, no sequence of further observations whose
times lie within the 24-hour window after `now` ever fires it again. -/
theorem alert_fires_iff_cooldown_and_never_twice
    (now pid : Nat) (price : ℚ) (a : PriceAlert)
    (hact : a.is_active = true) (hpid : a.product_id = pid)
    (hprice : price ≤ a.target_price) :
    ((processAlert now pid price a).2 = true ↔
      (a.last_notified_at = none ∨
        ∃ t, a.last_notified_at = some t ∧
          (24 * 60 * 60 : ℤ) ≤ (now : ℤ) - t)) ∧
    (∀ os : List ObsIn, (processAlert now pid price a).2 = true →
      (∀ o ∈ os, (o.time : ℤ) - (now : ℤ) < 24 * 60 * 60) →
      (runObservations (processAlert now pid price a).1 os).2 = 0) := by
  have hm : alertMatches pid price a = true := by
    simp [alertMatches, hpid, hact, hprice]
  constructor
  · rw [← shouldNotify_eq_true_iff]
    unfold processAlert
    by_cases hs : shouldNotify now a.last_notified_at
    · simp [hm, hs]
    · simp [hm, hs]
  · intro os hfire hos
    have hlast := processAlert_fire_last now pid price a hfire
    unfold runObservations
    rw [runObservations_frozen now _ hlast os hos 0]

/-- A concrete active rule with no previous notification, used to
exercise the evaluator. -/
def sampleAlert1 : PriceAlert :=
  { id := 1, product_id := 1, target_price := 100,
    notification_email := some "user@example.com", notification_phone := none,
    notification_telegram := none, is_active := true, last_notified_at := none }

/-- Witness for C1: the sample rule fires on a 90-priced observation at
time 1000, and a qualifying observation one minute later does not fire it
again. -/
theorem alert_fires_iff_cooldown_and_never_twice_witness :
    (processAlert 1000 1 90 sampleAlert1).2 = true ∧
    (runObservations (processAlert 1000 1 90 sampleAlert1).1
      [{ time := 1060, pid := 1, price := 80 }]).2 = 0 := by
  have h := alert_fires_iff_cooldown_and_never_twice 1000 1 90 sampleAlert1
    rfl rfl (by decide)
  have hfire : (processAlert 1000 1 90 sampleAlert1).2 = true :=
    h.1.mpr (Or.inl rfl)
  exact ⟨hfire, h.2 [{ time := 1060, pid := 1, price := 80 }] hfire (by decide)⟩

/-! ## Lemmas about dispatch ordering -/

theorem dispatchAfterUpdate_sets_front (aid now : Nat) (ids : List Nat)
    (seen : Bool) (tr : List Ev) :
    dispatchAfterUpdate aid seen
        (ids.map (fun i => Ev.setLastNotified i now) ++ tr) =
      dispatchAfterUpdate aid (seen || ids.any (fun i => i == aid)) tr := by
  induction ids generalizing seen with
  | nil => simp
  | cons i ids ih =>
    simp only [List.map_cons, List.cons_append, dispatchAfterUpdate,
      List.any_cons, List.append_eq]
    rw [ih, Bool.or_assoc]

theorem schedulerAlertTrace_shape (now : Nat) (db : DB) (a : PriceAlert) :
    schedulerAlertTrace now db a = [] ∨
    schedulerAlertTrace now db a =
      [Ev.dispatch [a.id], Ev.setLastNotified a.id now, Ev.commit] := by
  unfold schedulerAlertTrace
  cases hl : latestPricePoint db.pricePoints a.product_id with
  | none => exact Or.inl rfl
  | some lp =>
    cases hp : db.products.find? (fun p => p.id == a.product_id) with
    | none => exact Or.inl rfl
    | some p =>
      dsimp only
      split
      · exact Or.inr rfl
      · exact Or.inl rfl

theorem updateAfterDispatch_sched_aux (aid now : Nat) (db : DB) :
    ∀ (as : List PriceAlert) (seen : Bool),
      updateAfterDispatch aid seen
        ((as.map (schedulerAlertTrace now db)).flatten) = true := by
  intro as
  induction as with
  | nil => intro seen; rfl
  | cons a as ih =>
    intro seen
    rcases schedulerAlertTrace_shape now db a with h | h <;>
      simp only [List.map_cons, List.flatten_cons, h]
    · simpa using ih seen
    · simp only [List.cons_append, List.nil_append, updateAfterDispatch,
        List.any_cons, List.any_nil]
      cases hq : (a.id == aid) with
      | false => simpa [hq] using ih (seen || false)
      | true => simpa [hq] using ih (seen || true)

/-- C2 (amended): in the Celery per-product path (`check_product_alerts`)
every dispatch naming a rule is preceded by that rule's
`last_notified_at` write, but in `TaskScheduler.check_price_alerts`
the order is reversed: every `last_notified_at` write is preceded by the
rule's dispatch attempt, so a crash mid-dispatch there can redeliver. -/
theorem update_dispatch_order_per_path (now pid : Nat) (price : ℚ)
    (alerts : List PriceAlert) (aid : Nat) (db : DB) :
    dispatchAfterUpdate aid false
        (checkProductAlertsTrace now pid price alerts) = true ∧
    updateAfterDispatch aid false (schedulerCheckTrace now db) = true := by
  constructor
  · unfold checkProductAlertsTrace
    rw [dispatchAfterUpdate_sets_front]
    cases he : (triggeredIds now pid price alerts).isEmpty with
    | true => rfl
    | false =>
      simp only [Bool.false_or, dispatchAfterUpdate, Bool.and_true]
      cases hc : (triggeredIds now pid price alerts).contains aid <;> simp [hc]
  · exact updateAfterDispatch_sched_aux aid now db _ false

/-- A database with one active product, one qualifying price point and
one active never-notified alert. -/
def oneAlertDb : DB :=
  { products := [{ id := 1, name := "p", url := "u", active := true }],
    pricePoints := [{ product_id := 1, price := 50, currency := "USD",
                      in_stock := true, timestamp := 10 }],
    alerts := [{ id := 1, product_id := 1, target_price := 100,
                 notification_email := some "a@b.c",
                 notification_phone := none, notification_telegram := none,
                 is_active := true, last_notified_at := none }] }

/-- Counterexample to C2 as stated: in the
`TaskScheduler.check_price_alerts` path the dispatch attempt for rule 1
precedes the write of its `last_notified_at` — the trace is exactly
dispatch, write, commit, and the update-before-dispatch scan fails. -/
theorem scheduler_dispatch_precedes_update_counterexample :
    schedulerCheckTrace 1000 oneAlertDb =
      [Ev.dispatch [1], Ev.setLastNotified 1 1000, Ev.commit] ∧
    dispatchAfterUpdate 1 false (schedulerCheckTrace 1000 oneAlertDb) = false := by
  constructor
  · rfl
  · rfl

/-! ## Lemmas about which rules the evaluation paths can touch -/

theorem taskAlertTrace_shape (now : Nat) (db : DB) (a : PriceAlert) :
    taskAlertTrace now db a = [] ∨
    taskAlertTrace now db a = [Ev.setLastNotified a.id now, Ev.dispatch [a.id]] := by
  unfold taskAlertTrace
  split
  · exact Or.inl rfl
  · cases hl : latestPricePoint db.pricePoints a.product_id with
    | none => exact Or.inl rfl
    | some lp =>
      dsimp only
      split
      · exact Or.inr rfl
      · exact Or.inl rfl

theorem dispatch_mem_sched_active (now : Nat) (db : DB) (ids : List Nat)
    (h : Ev.dispatch ids ∈ schedulerCheckTrace now db) :
    ∃ a ∈ db.alerts, a.is_active = true ∧ ids = [a.id] := by
  unfold schedulerCheckTrace at h
  rw [List.mem_flatten] at h
  obtain ⟨blk, hblk, hin⟩ := h
  rw [List.mem_map] at hblk
  obtain ⟨a, ha, rfl⟩ := hblk
  rw [List.mem_filter] at ha
  refine ⟨a, ha.1, ha.2, ?_⟩
  rcases schedulerAlertTrace_shape now db a with hs | hs <;> rw [hs] at hin
  · cases hin
  · simpa using hin

theorem dispatch_mem_task_active (now : Nat) (db : DB) (ids : List Nat)
    (h : Ev.dispatch ids ∈ checkPriceAlertsTaskTrace now db) :
    ∃ a ∈ db.alerts, a.is_active = true ∧ ids = [a.id] := by
  unfold checkPriceAlertsTaskTrace at h
  rw [List.mem_append] at h
  have hbody : Ev.dispatch ids ∈
      ((db.alerts.filter (fun a => a.is_active)).map (taskAlertTrace now db)).flatten := by
    rcases h with h | h
    · exact h
    · exfalso
      cases he : ((db.alerts.filter (fun a => a.is_active)).map
          (taskAlertTrace now db)).flatten.isEmpty <;> simp [he] at h
  rw [List.mem_flatten] at hbody
  obtain ⟨blk, hblk, hin⟩ := hbody
  rw [List.mem_map] at hblk
  obtain ⟨a, ha, rfl⟩ := hblk
  rw [List.mem_filter] at ha
  refine ⟨a, ha.1, ha.2, ?_⟩
  rcases taskAlertTrace_shape now db a with hs | hs <;> rw [hs] at hin
  · cases hin
  · simpa using hin

/-- C4 (amended): inactive rules are never dispatched by either periodic
recheck path, and the per-product path never evaluates a product whose
`active` flag is false; the product `active` flag is however not
consulted by the periodic recheck paths. -/
theorem inactive_rule_and_product_handling
    (now : Nat) (db : DB) (env : String → ScrapeOutcome) (pid : Nat)
    (ids : List Nat) :
    (Ev.dispatch ids ∈ schedulerCheckTrace now db →
      ∃ a ∈ db.alerts, a.is_active = true ∧ ids = [a.id]) ∧
    (Ev.dispatch ids ∈ checkPriceAlertsTaskTrace now db →
      ∃ a ∈ db.alerts, a.is_active = true ∧ ids = [a.id]) ∧
    ((∀ p ∈ db.products, p.id = pid → p.active = false) →
      (updateProductPrice env now db pid).1 = none) := by
  refine ⟨dispatch_mem_sched_active now db ids,
    dispatch_mem_task_active now db ids, ?_⟩
  intro hinact
  unfold updateProductPrice
  have hfind : db.products.find? (fun p => p.id == pid && p.active) = none := by
    rw [List.find?_eq_none]
    intro p hp
    simp only [Bool.and_eq_true, beq_iff_eq, not_and]
    intro hid
    simp [hinact p hp hid]
  rw [hfind]

/-- A database whose only product is soft-deleted (`active = False`) but
which still has an active alert and a qualifying price point. -/
def inactiveProductDb : DB :=
  { products := [{ id := 1, name := "p", url := "u", active := false }],
    pricePoints := [{ product_id := 1, price := 50, currency := "USD",
                      in_stock := true, timestamp := 10 }],
    alerts := [{ id := 1, product_id := 1, target_price := 100,
                 notification_email := some "a@b.c",
                 notification_phone := none, notification_telegram := none,
                 is_active := true, last_notified_at := none }] }

/-- Counterexample to C4 as stated: with every product inactive, both
periodic recheck paths still dispatch a notification for the product's
alert rule. -/
theorem inactive_product_still_notified_counterexample :
    inactiveProductDb.products.all (fun p => !p.active) = true ∧
    Ev.dispatch [1] ∈ schedulerCheckTrace 1000 inactiveProductDb ∧
    Ev.dispatch [1] ∈ checkPriceAlertsTaskTrace 1000 inactiveProductDb := by
  refine ⟨rfl, ?_, ?_⟩ <;> decide

/-- Witness for C4 (amended): the per-product task refuses an inactive
product, and concrete dispatches in the periodic paths come from active
rules. -/
theorem inactive_rule_and_product_handling_witness :
    (updateProductPrice (fun _ => ScrapeOutcome.raised) 5 inactiveProductDb 1).1 =
      none ∧
    ∃ a ∈ inactiveProductDb.alerts, a.is_active = true ∧ [1] = [a.id] :=
  ⟨(inactive_rule_and_product_handling 5 inactiveProductDb
      (fun _ => ScrapeOutcome.raised) 1 [1]).2.2 (by decide),
   (inactive_rule_and_product_handling 1000 inactiveProductDb
      (fun _ => ScrapeOutcome.raised) 1 [1]).1 (by decide)⟩

/-! ## Lemmas about the full sweep -/

theorem sweepNewPoints_append (env : String → ScrapeOutcome) (now : Nat)
    (l1 l2 : List Product) :
    sweepNewPoints env now (l1 ++ l2) =
      sweepNewPoints env now l1 ++ sweepNewPoints env now l2 := by
  induction l1 with
  | nil => rfl
  | cons p l ih => cases he : env p.url <;> simp [sweepNewPoints, he, ih]

theorem sweep_ok_mem (env : String → ScrapeOutcome) (now : Nat)
    (info : ProductInfo) :
    ∀ (ps : List Product) (p : Product), p ∈ ps →
      env p.url = ScrapeOutcome.ok info →
      mkPricePoint p.id info now ∈ sweepNewPoints env now ps := by
  intro ps
  induction ps with
  | nil => intro p h; cases h
  | cons q ps ih =>
    intro p hp hok
    rcases List.mem_cons.mp hp with rfl | hp2
    · simp [sweepNewPoints, hok]
    · cases he : env q.url with
      | ok i =>
          simp only [sweepNewPoints, he]
          exact List.mem_cons_of_mem _ (ih p hp2 hok)
      | noPrice => simp only [sweepNewPoints, he]; exact ih p hp2 hok
      | raised => simp only [sweepNewPoints, he]; exact ih p hp2 hok

/-- C5 (amended): one product's extraction failure removes only that
product from the appended points — the products before and after it are
still processed — and every successful extraction of an active product
lands in the store regardless of other products' failures; the sweep
never aborts.  However, the sweep's returned value is only the count of
scheduled active products (the claim's `attempted`); no
succeeded/failed counts are returned by either sweep path. -/
theorem sweep_failure_isolation_and_result
    (env : String → ScrapeOutcome) (now : Nat) (db : DB)
    (ps1 ps2 : List Product) (bad : Product) :
    ((env bad.url = ScrapeOutcome.raised ∨ env bad.url = ScrapeOutcome.noPrice) →
      sweepNewPoints env now (ps1 ++ bad :: ps2) =
        sweepNewPoints env now ps1 ++ sweepNewPoints env now ps2) ∧
    (∀ p info, p ∈ db.products → p.active = true →
      env p.url = ScrapeOutcome.ok info →
      mkPricePoint p.id info now ∈ (updateAllPricesSched env now db).pricePoints) ∧
    (updateAllPricesTask db).scheduled_products =
      (db.products.filter (fun p => p.active)).length := by
  refine ⟨?_, ?_, rfl⟩
  · intro hbad
    rw [sweepNewPoints_append]
    rcases hbad with hbad | hbad <;> simp [sweepNewPoints, hbad]
  · intro p info hp hact hok
    unfold updateAllPricesSched
    simp only [List.mem_append]
    right
    exact sweep_ok_mem env now info _ p
      (List.mem_filter.mpr ⟨hp, hact⟩) hok

/-- The five tracked products of the spec's sweep scenario. -/
def prodOne : Product := { id := 1, name := "p1", url := "u1", active := true }

def prodTwo : Product := { id := 2, name := "p2", url := "u2", active := true }

def prodThree : Product := { id := 3, name := "p3", url := "u3", active := true }

def prodFour : Product := { id := 4, name := "p4", url := "u4", active := true }

def prodFive : Product := { id := 5, name := "p5", url := "u5", active := true }

/-- Five active products, nothing else. -/
def fiveProductDb : DB :=
  { products := [prodOne, prodTwo, prodThree, prodFour, prodFive],
    pricePoints := [], alerts := [] }

/-- Extraction environment where product 3's extraction times out
(raises) and the rest succeed. -/
def envThirdFails : String → ScrapeOutcome :=
  fun u =>
    if u == "u3" then ScrapeOutcome.raised
    else ScrapeOutcome.ok { price := 10, currency := "USD", in_stock := true }

/-- Counterexample to C5 as stated: in the spec's own scenario (five
products, the third one failing) the Celery sweep's result carries only
`scheduled_products = 5` — it has no succeeded/failed counts — while the
summary the claim demands would be `{attempted 5, succeeded 4, failed 1}`;
the scheduler sweep still processes the remaining products (four points
are appended). -/
theorem sweep_summary_counterexample :
    updateAllPricesTask fiveProductDb = { scheduled_products := 5 } ∧
    specSweepCounts envThirdFails fiveProductDb.products =
      { attempted := 5, succeeded := 4, failed := 1 } ∧
    specSweepCounts (fun _ => ScrapeOutcome.ok
        { price := 10, currency := "USD", in_stock := true })
        fiveProductDb.products ≠
      specSweepCounts envThirdFails fiveProductDb.products ∧
    (sweepNewPoints envThirdFails 77
        (fiveProductDb.products.filter (fun p => p.active))).length = 4 := by
  exact ⟨rfl, by decide, by decide, by decide⟩

/-- Witness for C5 (amended) on the concrete scenario. -/
theorem sweep_failure_isolation_witness :
    sweepNewPoints envThirdFails 77
        ([prodOne, prodTwo] ++ prodThree :: [prodFour, prodFive]) =
      sweepNewPoints envThirdFails 77 [prodOne, prodTwo] ++
        sweepNewPoints envThirdFails 77 [prodFour, prodFive] ∧
    mkPricePoint 4 { price := 10, currency := "USD", in_stock := true } 77 ∈
      (updateAllPricesSched envThirdFails 77 fiveProductDb).pricePoints := by
  have h := sweep_failure_isolation_and_result envThirdFails 77 fiveProductDb
    [prodOne, prodTwo] [prodFour, prodFive] prodThree
  exact ⟨h.1 (Or.inl (by decide)),
    h.2.1 prodFour { price := 10, currency := "USD", in_stock := true }
      (by decide) rfl (by decide)⟩

/-! ## Lemmas about the scraper registry -/

theorem registerAll_distinct_aux :
    ∀ (ps acc : List Scraper),
      ((acc ++ ps).map (fun s => s.storeName)).Nodup →
      ps.foldl registerScraper acc = acc ++ ps := by
  intro ps
  induction ps with
  | nil => intro acc h; simp
  | cons p ps ih =>
    intro acc h
    have hnotin : acc.any (fun q => q.storeName == p.storeName) = false := by
      rw [List.any_eq_false]
      intro q hq
      simp only [beq_iff_eq]
      intro heq
      have h1 : p.storeName ∈ acc.map (fun s => s.storeName) :=
        List.mem_map.mpr ⟨q, hq, heq⟩
      rw [List.map_append, List.map_cons] at h
      exact (List.nodup_append.mp h).2.2 h1 (List.mem_cons_self _ _)
    have hstep : registerScraper acc p = acc ++ [p] := by
      unfold registerScraper
      rw [hnotin]
      simp
    rw [List.foldl_cons, hstep, ih (acc ++ [p]) (by simpa using h)]
    simp

theorem registerAll_distinct (ps : List Scraper)
    (h : (ps.map (fun s => s.storeName)).Nodup) : registerAll ps = ps := by
  unfold registerAll
  have := registerAll_distinct_aux ps [] (by simpa using h)
  simpa using this

theorem find?_first_split (url : String) :
    ∀ (l : List Scraper) (s : Scraper),
      l.find? (fun q => q.matchesUrl url) = some s →
      ∃ l1 l2, l = l1 ++ s :: l2 ∧ s.matchesUrl url = true ∧
        ∀ q ∈ l1, q.matchesUrl url = false := by
  intro l
  induction l with
  | nil => intro s h; cases h
  | cons q l ih =>
    intro s h
    cases hq : q.matchesUrl url with
    | true =>
      have hs : q = s := by
        rw [List.find?_cons_of_pos l
          (show (fun r : Scraper => r.matchesUrl url) q = true from hq)] at h
        exact Option.some.inj h
      subst hs
      exact ⟨[], l, rfl, hq, by intro x hx; cases hx⟩
    | false =>
      have h' : l.find? (fun q => q.matchesUrl url) = some s := by
        rw [List.find?_cons_of_neg l
          (show ¬(fun r : Scraper => r.matchesUrl url) q = true by simp [hq])] at h
        exact h
      obtain ⟨l1, l2, rfl, hm, hall⟩ := ih s h'
      refine ⟨q :: l1, l2, rfl, hm, ?_⟩
      intro x hx
      rcases List.mem_cons.mp hx with rfl | hx2
      · exact hq
      · exact hall x hx2

/-- C6: with the registered store names pairwise distinct (as holds for
the discovered Amazon/eBay/Walmart scrapers), the registry built by
dict-keyed registration resolves a URL to the first registered plugin
whose URL predicate accepts it — every earlier-registered plugin rejects
the URL — and resolves to `None` exactly when no registered plugin
accepts the URL. -/
theorem resolve_first_registered (ps : List Scraper) (url : String)
    (hdist : (ps.map (fun s => s.storeName)).Nodup) :
    (getScraperForUrl (registerAll ps) url = none ↔
      ∀ p ∈ ps, p.matchesUrl url = false) ∧
    (∀ s, getScraperForUrl (registerAll ps) url = some s →
      ∃ l1 l2, ps = l1 ++ s :: l2 ∧ s.matchesUrl url = true ∧
        ∀ q ∈ l1, q.matchesUrl url = false) := by
  rw [getScraperForUrl, registerAll_distinct ps hdist]
  constructor
  · rw [List.find?_eq_none]
    constructor
    · intro h p hp
      have := h p hp
      simpa using this
    · intro h p hp
      simp [h p hp]
  · intro s hs
    exact find?_first_split url ps s hs

/-- A stand-in Amazon-style plugin with a concrete URL predicate. -/
def amazonLike : Scraper :=
  { storeName := "Amazon", matchesUrl := fun u => u == "a",
    extract := fun _ => ExtractResult.dict [] }

/-- A stand-in eBay-style plugin with a concrete URL predicate. -/
def ebayLike : Scraper :=
  { storeName := "eBay", matchesUrl := fun u => u == "e",
    extract := fun _ => ExtractResult.dict [] }

/-- Witness for C6: with the two stand-in plugins registered, an
unmatched URL resolves to `None`. -/
theorem resolve_first_registered_witness :
    getScraperForUrl (registerAll [amazonLike, ebayLike]) "x" = none :=
  (resolve_first_registered [amazonLike, ebayLike] "x" (by decide)).1.mpr
    (by decide)

/-! ## Lemmas about the notification dispatcher -/

theorem channelBlock_mem (nopt : Option Notifier) (cond : Bool) (ch : String)
    (recip : String) (chv : String) (b : Bool)
    (h : (chv, b) ∈
      (if cond then
        match nopt with
        | some n => if n.configured then [(ch, n.sendOk recip)] else []
        | none => []
      else ([] : List (String × Bool)))) :
    chv = ch ∧ ∃ n, nopt = some n ∧ n.configured = true := by
  by_cases hc : cond = true
  · rw [if_pos hc] at h
    cases nopt with
    | none => cases h
    | some n =>
      dsimp only at h
      by_cases hn : n.configured = true
      · rw [if_pos hn] at h
        have h2 := List.mem_singleton.mp h
        have h3 : chv = ch := congrArg Prod.fst h2
        exact ⟨h3, n, rfl, hn⟩
      · rw [if_neg hn] at h
        cases h
  · rw [if_neg hc] at h
    cases h

/-- C3 (amended): `NotificationManager.send_price_alert` returns an
outcome entry only for channels whose sender is present and configured —
an unconfigured channel is skipped and never appears (in particular never
as a failure).  The Celery task `send_price_alert_notifications`,
however, records `False` for a truthy endpoint whose sender is missing
or unconfigured. -/
theorem dispatch_outcomes_only_configured (ns : NotifierSet) (a : PriceAlert)
    (ch : String) (b : Bool) (h : (ch, b) ∈ sendPriceAlert ns a) :
    channelConfigured ns ch = true := by
  unfold sendPriceAlert at h
  rw [List.mem_append] at h
  rcases h with h | h
  · rw [List.mem_append] at h
    rcases h with h | h
    · obtain ⟨rfl, n, hn, hcfg⟩ :=
        channelBlock_mem ns.email (truthy a.notification_email) "email"
          (a.notification_email.getD "") ch b h
      simp [channelConfigured, hn, hcfg]
    · obtain ⟨rfl, n, hn, hcfg⟩ :=
        channelBlock_mem ns.telegram (truthy a.notification_telegram) "telegram"
          (a.notification_telegram.getD "") ch b h
      simp [channelConfigured, hn, hcfg]
  · obtain ⟨rfl, n, hn, hcfg⟩ :=
      channelBlock_mem ns.twilio (truthy a.notification_phone) "sms"
        (a.notification_phone.getD "") ch b h
    simp [channelConfigured, hn, hcfg]

/-- A notifier set whose only discovered sender (email) is not
configured. -/
def unconfiguredEmailSet : NotifierSet :=
  { email := some { configured := false, sendOk := fun _ => true },
    telegram := none, twilio := none }

/-- Counterexample to C3 as stated: dispatching through the Celery task
path for a rule with an email endpoint and an unconfigured email sender
produces the outcome map `[(email, False)]` — the unconfigured channel
appears as a failure — while the `NotificationManager` path correctly
returns the empty map for the same input. -/
theorem task_outcome_unconfigured_counterexample :
    taskAlertResults unconfiguredEmailSet sampleAlert1 = [("email", false)] ∧
    channelConfigured unconfiguredEmailSet "email" = false ∧
    sendPriceAlert unconfiguredEmailSet sampleAlert1 = [] := by
  exact ⟨rfl, rfl, rfl⟩

/-- A notifier set whose email sender is configured and always
succeeds. -/
def configuredEmailSet : NotifierSet :=
  { email := some { configured := true, sendOk := fun _ => true },
    telegram := none, twilio := none }

/-- Witness for C3 (amended): a concrete entry of the manager's outcome
map comes from a configured channel. -/
theorem dispatch_outcomes_only_configured_witness :
    channelConfigured configuredEmailSet "email" = true :=
  dispatch_outcomes_only_configured configuredEmailSet sampleAlert1 "email"
    true (by decide)

/-! ## Alert creation -/

/-- C7 (amended): `create_price_alert` performs no endpoint validation:
when the product exists the alert row is created exactly as requested —
even with every endpoint empty — and the only rejection is 404 for a
missing product; no `ValidationError` path exists. -/
theorem create_alert_behaviour (db : DB) (req : AlertCreateReq) (newId : Nat) :
    ((db.products.find? (fun p => p.id == req.product_id)).isSome = true →
      ∃ d, createPriceAlert db req newId = Except.ok d ∧
        d.2.notification_email = req.notification_email ∧
        d.2.notification_phone = req.notification_phone ∧
        d.2.notification_telegram = req.notification_telegram ∧
        d.1.alerts = db.alerts ++ [d.2]) ∧
    (db.products.find? (fun p => p.id == req.product_id) = none →
      createPriceAlert db req newId = Except.error ApiError.notFound) := by
  unfold createPriceAlert
  cases h : db.products.find? (fun p => p.id == req.product_id) with
  | none =>
    constructor
    · intro hs
      rw [Option.isSome_none] at hs
      cases hs
    · intro _
      rfl
  | some p =>
    constructor
    · intro _
      exact ⟨_, rfl, rfl, rfl, rfl, rfl⟩
    · intro hn
      cases hn

/-- A database holding a single product and nothing else. -/
def productOnlyDb : DB :=
  { products := [{ id := 1, name := "p", url := "u", active := true }],
    pricePoints := [], alerts := [] }

/-- An alert-creation request with every notification endpoint empty. -/
def emptyEndpointsReq : AlertCreateReq :=
  { product_id := 1, target_price := 50, notification_email := none,
    notification_phone := none, notification_telegram := none }

/-- The rule that request produces under id 7. -/
def emptyRule7 : PriceAlert :=
  { id := 7, product_id := 1, target_price := 50,
    notification_email := none, notification_phone := none,
    notification_telegram := none, is_active := true,
    last_notified_at := none }

/-- Counterexample to C7 as stated: creating an alert with all endpoints
empty succeeds — the rule is created with every endpoint falsy and no
`ValidationError` is raised. -/
theorem create_alert_empty_endpoints_counterexample :
    createPriceAlert productOnlyDb emptyEndpointsReq 7 =
      Except.ok
        ({ products := productOnlyDb.products, pricePoints := [],
           alerts := [emptyRule7] }, emptyRule7) ∧
    truthy emptyRule7.notification_email = false ∧
    truthy emptyRule7.notification_phone = false ∧
    truthy emptyRule7.notification_telegram = false := by
  exact ⟨rfl, rfl, rfl, rfl⟩

/-- Witness for C7 (amended) at the concrete database and request. -/
theorem create_alert_behaviour_witness :
    ∃ d, createPriceAlert productOnlyDb emptyEndpointsReq 7 = Except.ok d ∧
      d.2.notification_email = emptyEndpointsReq.notification_email ∧
      d.2.notification_phone = emptyEndpointsReq.notification_phone ∧
      d.2.notification_telegram = emptyEndpointsReq.notification_telegram ∧
      d.1.alerts = productOnlyDb.alerts ++ [d.2] :=
  (create_alert_behaviour productOnlyDb emptyEndpointsReq 7).1 (by decide)

/-! ## Round trip of the latest-observation query -/

theorem latest_foldl_mem :
    ∀ (l : List PricePoint) (acc : Option PricePoint) (b : PricePoint),
      l.foldl latestStep acc = some b → acc = some b ∨ b ∈ l := by
  intro l
  induction l with
  | nil => intro acc b h; exact Or.inl h
  | cons q l ih =>
    intro acc b h
    rw [List.foldl_cons] at h
    rcases ih (latestStep acc q) b h with h2 | h2
    · unfold latestStep at h2
      cases acc with
      | none =>
        cases Option.some.inj h2
        exact Or.inr (List.mem_cons_self _ _)
      | some b0 =>
        dsimp only at h2
        by_cases hle : b0.timestamp ≤ q.timestamp
        · rw [if_pos hle] at h2
          cases Option.some.inj h2
          exact Or.inr (List.mem_cons_self _ _)
        · rw [if_neg hle] at h2
          exact Or.inl h2
    · exact Or.inr (List.mem_cons_of_mem _ h2)

/-- C8: appending an observation whose timestamp is at or after every
stored observation for its product (as holds when the store assigns
`utcnow` at insert) makes the latest-observation query return exactly the
appended observation, and the product response then carries its price,
currency and stock flag unchanged. -/
theorem append_then_latest_roundtrip (db : DB) (pt : PricePoint) (pid : Nat)
    (hpid : pt.product_id = pid)
    (hts : ∀ q ∈ db.pricePoints, q.product_id = pid →
      q.timestamp ≤ pt.timestamp) :
    latestPricePoint (appendPricePoint db pt).pricePoints pid = some pt ∧
    productLatestView (appendPricePoint db pt) pid =
      { current_price := some pt.price, currency := pt.currency,
        in_stock := pt.in_stock } := by
  have hl : latestPricePoint (appendPricePoint db pt).pricePoints pid = some pt := by
    unfold appendPricePoint latestPricePoint
    dsimp only
    rw [List.filter_append, List.foldl_append]
    have hfpt : List.filter (fun q => q.product_id == pid) [pt] = [pt] := by
      simp [List.filter, hpid]
    rw [hfpt, List.foldl_cons, List.foldl_nil]
    cases hacc : (db.pricePoints.filter (fun q => q.product_id == pid)).foldl
        latestStep none with
    | none => rfl
    | some b =>
      have hb : b ∈ db.pricePoints.filter (fun q => q.product_id == pid) := by
        rcases latest_foldl_mem _ none b hacc with h | h
        · cases h
        · exact h
      rw [List.mem_filter] at hb
      have hble : b.timestamp ≤ pt.timestamp :=
        hts b hb.1 (by simpa using hb.2)
      unfold latestStep
      dsimp only
      rw [if_pos hble]
  refine ⟨hl, ?_⟩
  unfold productLatestView
  rw [hl]

/-- Witness for C8: appending a fresh observation to the one-alert
database and querying the latest observation returns it unchanged. -/
theorem append_then_latest_roundtrip_witness :
    latestPricePoint
        (appendPricePoint oneAlertDb
          { product_id := 1, price := 42, currency := "USD",
            in_stock := true, timestamp := 99 }).pricePoints 1 =
      some { product_id := 1, price := 42, currency := "USD",
             in_stock := true, timestamp := 99 } :=
  (append_then_latest_roundtrip oneAlertDb
    { product_id := 1, price := 42, currency := "USD", in_stock := true,
      timestamp := 99 } 1 rfl (by decide)).1

/-! ## Lemmas about the price-string cleaner -/

theorem findNumber_none (l : List Char) (h : ∀ c ∈ l, c.isDigit = false) :
    findNumber l = none := by
  induction l with
  | nil => rfl
  | cons c l ih =>
    unfold findNumber
    rw [if_neg (by simp [h c (List.mem_cons_self c l)])]
    exact ih (fun x hx => h x (List.mem_cons_of_mem c hx))

theorem cleanedChars_no_digit (s : String)
    (h : s.data.all (fun c => !c.isDigit) = true) :
    ∀ c ∈ cleanedChars s, c.isDigit = false := by
  intro c hc
  unfold cleanedChars commaToDot pyStrip stripCurrencySymbols at hc
  rw [List.mem_map] at hc
  obtain ⟨c0, hc0, rfl⟩ := hc
  have hc1 : c0 ∈ s.data := by
    rw [List.mem_reverse] at hc0
    have hc2 := (List.dropWhile_sublist _).mem hc0
    rw [List.mem_reverse] at hc2
    have hc3 := (List.dropWhile_sublist _).mem hc2
    exact (List.mem_filter.mp hc3).1
  have hnd : c0.isDigit = false := by
    have := List.all_eq_true.mp h c0 hc1
    simpa using this
  by_cases hcomma : (c0 == ',') = true
  · simp [hcomma]
  · simp only [hcomma, if_false, Bool.false_eq_true]
    exact hnd

/-- C9: `clean_price` is total and never negative — the parsed number is
built from bare digit runs, so even a negative-looking input yields a
non-negative value — and an input containing no digit at all cleanly
returns 0 instead of raising. -/
theorem clean_price_total_nonneg (s : String) :
    0 ≤ clean_price s ∧
    (s.data.all (fun c => !c.isDigit) = true → clean_price s = 0) := by
  constructor
  · unfold clean_price
    cases hf : findNumber (cleanedChars s) with
    | none => exact le_refl 0
    | some m =>
      obtain ⟨ds, fr⟩ := m
      cases fr with
      | none =>
        show (0 : ℚ) ≤ (digitsToNat ds : ℚ)
        exact_mod_cast Nat.zero_le _
      | some fs =>
        show (0 : ℚ) ≤ (digitsToNat ds : ℚ) +
          (digitsToNat fs : ℚ) / ((10 ^ fs.length : ℕ) : ℚ)
        have h1 : (0 : ℚ) ≤ (digitsToNat ds : ℚ) := by exact_mod_cast Nat.zero_le _
        have h2 : (0 : ℚ) ≤ (digitsToNat fs : ℚ) := by exact_mod_cast Nat.zero_le _
        have h3 : (0 : ℚ) ≤ ((10 ^ fs.length : ℕ) : ℚ) := by
          exact_mod_cast Nat.zero_le _
        exact add_nonneg h1 (div_nonneg h2 h3)
  · intro h
    unfold clean_price
    rw [findNumber_none _ (cleanedChars_no_digit s h)]

/-- Witness for C9: a priced string yields a non-negative value and a
digit-free string yields 0. -/
theorem clean_price_total_nonneg_witness :
    0 ≤ clean_price "$10.99" ∧ clean_price "abc" = 0 :=
  ⟨(clean_price_total_nonneg "$10.99").1,
   (clean_price_total_nonneg "abc").2 (by decide)⟩

/-! ## Scrape-product failure containment -/

theorem dictInsert_mem (d : List (String × String)) (k v : String) :
    (k, v) ∈ dictInsert d k v := by
  unfold dictInsert
  by_cases ha : (d.any fun kv => kv.1 == k) = true
  case neg => rw [if_neg ha]; simp
  case pos =>
    rw [if_pos ha]
    obtain ⟨kv, hkv, hk⟩ := List.any_eq_true.mp ha
    rw [List.mem_map]
    exact ⟨kv, hkv, by simp [hk]⟩

/-- C10: `scrape_product` contains every failure: with no matching
scraper, or with the matched scraper raising, it returns the empty
dictionary; and every non-empty dictionary it returns carries the
`store_name` key set from the matched scraper. -/
theorem scrapeProduct_failure_and_store (rs : List Scraper) (url : String) :
    (getScraperForUrl rs url = none → scrapeProduct rs url = []) ∧
    (∀ s, getScraperForUrl rs url = some s →
      s.extract url = ExtractResult.raised → scrapeProduct rs url = []) ∧
    (scrapeProduct rs url ≠ [] →
      ∃ s, getScraperForUrl rs url = some s ∧
        ("store_name", s.storeName) ∈ scrapeProduct rs url) := by
  unfold scrapeProduct
  cases hres : getScraperForUrl rs url with
  | none =>
    refine ⟨fun _ => rfl, ?_, ?_⟩
    · intro s h
      cases h
    · intro hne
      exact absurd rfl hne
  | some s =>
    dsimp only
    refine ⟨?_, ?_, ?_⟩
    · intro h
      cases h
    · intro s2 hs2 hraise
      injection hs2 with h2
      subst h2
      rw [hraise]
    · intro hne
      refine ⟨s, rfl, ?_⟩
      cases hx : s.extract url with
      | raised =>
        rw [hx] at hne
        exact absurd rfl hne
      | dict d =>
        dsimp only
        cases hd : d.isEmpty with
        | true =>
          rw [hx] at hne
          rw [List.isEmpty_iff] at hd
          subst hd
          exact absurd rfl hne
        | false =>
          rw [if_neg (by decide : ¬false = true)]
          exact dictInsert_mem d "store_name" s.storeName

/-- A scraper whose extraction succeeds with a one-field dictionary. -/
def okScraper : Scraper :=
  { storeName := "Amazon", matchesUrl := fun _ => true,
    extract := fun _ => ExtractResult.dict [("name", "x")] }

/-- Witness for C10: on an empty registry the result is the empty
dictionary, and with a succeeding scraper the result carries its store
name. -/
theorem scrapeProduct_failure_and_store_witness :
    scrapeProduct [] "u" = [] ∧
    ∃ s, getScraperForUrl [okScraper] "u" = some s ∧
      ("store_name", s.storeName) ∈ scrapeProduct [okScraper] "u" :=
  ⟨(scrapeProduct_failure_and_store [] "u").1 rfl,
   (scrapeProduct_failure_and_store [okScraper] "u").2.2 (by decide)⟩

end PriceWatcher
